import Mathlib

/-!
Shallow embedding of the BentoML remote runner client
(`bentoml/_internal/runner/runner_handle/remote.py`).

The source file drives a remote inference worker over HTTP.  We embed its
pure control flow: URI parsing and connector construction (`_get_conn`),
session construction (`_client`), request building and response decoding
(`async_run_method`).  External collaborators that the source only calls
(the container serialization service `AutoContainer.to_payload` /
`from_payload`, the JSON codec, the HTTP transport itself) are passed in as
function parameters; the event loop is modelled by an identifier plus a
closed flag, mirroring the two observations the source makes of it
(identity and `is_closed()`).
-/

/-- Raw byte strings are modelled as Lean strings; `bytes.decode()` becomes
the identity. -/
abbrev Bytes := String

/-- An asyncio event loop as observed by the client: its identity and
whether `is_closed()` holds. -/
structure EventLoop where
  id : Nat
  closed : Bool
deriving Repr, DecidableEq

/-- The kind of aiohttp connector built by `_get_conn`: a Unix-domain-socket
connector carrying its socket path, or a TCP connector carrying its
`verify_ssl` flag. -/
inductive ConnKind where
  | unix (path : String)
  | tcp (verify_ssl : Bool)
deriving Repr, DecidableEq

/-- An aiohttp `BaseConnector` as configured by `_get_conn`: kind, the id of
the loop it is bound to, the pool limit, the keep-alive timeout (seconds),
and its closed flag. -/
structure Connector where
  kind : ConnKind
  loopId : Nat
  limit : Nat
  keepalive_timeout : Nat
  closed : Bool
deriving Repr, DecidableEq

/-- `aiohttp.UnixConnector(path=path, loop=loop, limit=800,
keepalive_timeout=1800.0)` as called in `_get_conn`; a fresh connector is
open. -/
def aiohttpUnixConnector (path : String) (loopId : Nat) : Connector :=
  { kind := .unix path, loopId := loopId, limit := 800,
    keepalive_timeout := 1800, closed := false }

/-- `aiohttp.TCPConnector(loop=loop, verify_ssl=False, limit=800,
keepalive_timeout=1800.0)` as called in `_get_conn`; a fresh connector is
open. -/
def aiohttpTCPConnector (loopId : Nat) : Connector :=
  { kind := .tcp false, loopId := loopId, limit := 800,
    keepalive_timeout := 1800, closed := false }

/-- An aiohttp `ClientSession` as configured by `_client`: the connector it
wraps, the total timeout in seconds, the fixed flags the source passes, the
id of the loop it is bound to and its closed flag. -/
structure ClientSession where
  conn : Connector
  timeout_total : Nat
  auto_decompress : Bool
  connector_owner : Bool
  trust_env : Bool
  dummy_cookie_jar : Bool
  loopId : Nat
  closed : Bool
deriving Repr, DecidableEq

/-- `aiohttp.ClientSession(connector=c, auto_decompress=False,
cookie_jar=DummyCookieJar(), connector_owner=False, timeout=timeout,
loop=loop, trust_env=True)` as called in `_client`; a fresh session is
open. -/
def aiohttpClientSession (c : Connector) (timeout_total : Nat) (loopId : Nat) :
    ClientSession :=
  { conn := c, timeout_total := timeout_total, auto_decompress := false,
    connector_owner := false, trust_env := true, dummy_cookie_jar := true,
    loopId := loopId, closed := false }

/-- Result of `urllib.parse.urlparse` restricted to the parts the source
reads: `scheme` (lower-cased), `netloc` and `path`. -/
structure ParsedUrl where
  scheme : String
  netloc : String
  path : String
deriving Repr, DecidableEq

/-- Python `str.lower` (ASCII is all the source ever feeds it). -/
def pyLower (s : String) : String := String.mk (s.toList.map Char.toLower)

/-- Python `s.startswith(pre)`. -/
def pyStartsWith (s pre : String) : Bool :=
  s.toList.take pre.toList.length == pre.toList

/-- Splits a character list at the first occurrence of `://`, returning the
part before (accumulated reversed in `acc`) and the part after. -/
def findSchemeSep (acc : List Char) : List Char → Option (List Char × List Char)
  | [] => none
  | ':' :: '/' :: '/' :: rest => some (acc.reverse, rest)
  | c :: rest => findSchemeSep (c :: acc) rest

/-- `urllib.parse.urlparse` on URIs of the shape `scheme://netloc/path`
(the only shapes the source feeds it): the scheme is what precedes `://`
lower-cased, the netloc runs to the next slash, the path keeps its leading
slash.  A URI without `://` has empty scheme and netloc. -/
def urlparse (uri : String) : ParsedUrl :=
  match findSchemeSep [] uri.toList with
  | none => { scheme := "", netloc := "", path := uri }
  | some (schemeCs, restCs) =>
    { scheme := pyLower (String.mk schemeCs),
      netloc := String.mk (restCs.takeWhile (fun ch => ch ≠ '/')),
      path := String.mk (restCs.dropWhile (fun ch => ch ≠ '/')) }

/-- Modelled from the spec: `uri_to_path` (imported by the source from
`bentoml._internal.utils.uri`, not under `src/`).  The spec reads a
`file://<path>` URI as naming the local socket at `<path>`, so this takes
the URI's path component. -/
def uri_to_path (uri : String) : String := (urlparse uri).path

/-- Python `str.strip(chars)`: removes from BOTH ends every leading and
trailing character that occurs in `chars`.  `chars` is a character set, not
a prefix or suffix string — this is exactly what line 238 of the source
calls. -/
def pyStrip (chars : String) (s : String) : String :=
  let cs := chars.toList
  String.mk
    (((s.toList.dropWhile (fun c => cs.contains c)).reverse.dropWhile
        (fun c => cs.contains c)).reverse)

/-- Modelled from the spec: the `Payload` envelope (defined in
`bentoml._internal.runner.container`, not under `src/`): raw bytes, a
metadata mapping (carried opaquely as its JSON text, so `json.dumps` of the
metadata is the field itself), the container tag, and the declared batch
size read by the dispatcher (`payload.batch_size`).  The response-side
constructor `Payload(data=..., meta=..., container=...)` leaves the batch
size at its default. -/
structure Payload where
  data : Bytes
  meta : String
  container : String
  batch_size : Int := -1
deriving Repr, DecidableEq

/-- Modelled from the spec: `Params` (from `bentoml._internal.runner.utils`,
not under `src/`) generalizes an argument list: positional values plus
keyword bindings. -/
structure Params (V : Type) where
  args : List V
  kwargs : List (String × V)
deriving Repr, DecidableEq

/-- Modelled from the spec: `Params.map`, the structure-preserving transform
(applies `f` to every positional and keyword value, preserving arity and
keyword names). -/
def Params.map {V W : Type} (p : Params V) (f : V → W) : Params W :=
  { args := p.args.map f, kwargs := p.kwargs.map (fun kv => (kv.1, f kv.2)) }

/-- Modelled from the spec: the sequence of a `Params`' values, positional
first, then keyword values. -/
def Params.item_list {V : Type} (p : Params V) : List V :=
  p.args ++ p.kwargs.map Prod.snd

/-- Whether every element of the list equals the first. -/
def listAllEqual (l : List Int) : Bool :=
  match l with
  | [] => true
  | x :: xs => xs.all (fun y => y == x)

/-- Modelled from the spec: `Params.all_equal`, the all-equal predicate over
the params' values, used by the dispatcher for the batch-size check. -/
def Params.all_equal (p : Params Int) : Bool := listAllEqual p.item_list

/-- The fields of `component_context` the source puts into request
headers. -/
structure ComponentContext where
  bento_name : String
  bento_version : String
  yatai_bento_deployment_name : String
  yatai_bento_deployment_namespace : String
deriving Repr, DecidableEq

/-- The part of a `RunnerMethod`'s config the dispatcher reads: the
batchable flag and the batch dimension pair (`batch_dim[0]` is the input
batch dimension). -/
structure RunnerMethodConfig where
  batchable : Bool
  batch_dim : Nat × Nat
deriving Repr, DecidableEq

/-- A runner method: its name and config. -/
structure RunnerMethod where
  name : String
  config : RunnerMethodConfig
deriving Repr, DecidableEq

/-- The exceptions the embedded code can raise: `RemoteException` (from
`bentoml.exceptions`), `ValueError`, `KeyError` (mapping lookup), and
`IndexError` (tuple index out of range). -/
inductive Err where
  | remoteException (msg : String)
  | valueError (msg : String)
  | keyError (key : String)
  | indexError
deriving Repr, DecidableEq

/-- The constructor (exception class) of an `Err`, as a small tag. -/
def Err.tag : Err → Nat
  | .remoteException _ => 0
  | .valueError _ => 1
  | .keyError _ => 2
  | .indexError => 3

/-- The exception class of the error of a computation, if it failed. -/
def errTagOf {α : Type} : Except Err α → Option Nat
  | .error e => some e.tag
  | .ok _ => none

/-- Modelled from the spec: the `PAYLOAD_META_HEADER` constant (imported by
the source from `bentoml._internal.runner.utils`, not under `src/`): the
name of the payload-metadata response header. -/
def PAYLOAD_META_HEADER : String := "Bento-Payload-Meta"

/-- The request body: either the raw payload bytes (single-argument fast
path) or the pickled `Params` of payloads (multi-argument path,
`pickle.dumps(payload_params)` kept as a tagged value since pickling is
external). -/
inductive Body where
  | raw (b : Bytes)
  | pickled (p : Params Payload)
deriving Repr, DecidableEq

/-- An outgoing HTTP request as the dispatcher builds it: the method path,
the headers in insertion order, and the body. -/
structure Request where
  path : String
  headers : List (String × String)
  body : Body
deriving Repr, DecidableEq

/-- An HTTP response as the dispatcher reads it: status, headers, body
bytes. -/
structure Response where
  status : Nat
  headers : List (String × String)
  body : Bytes
deriving Repr, DecidableEq

/-- Header lookup by exact name (`resp.headers[k]`, returning `none` where
Python raises `KeyError`). -/
def lookupHeader (hs : List (String × String)) (k : String) : Option String :=
  match hs with
  | [] => none
  | (k', v) :: rest => if k' = k then some v else lookupHeader rest k

/-- The mutable fields of `RemoteRunnerClient`: `_loop`, `_conn`,
`_client_cache`, `_addr`. -/
structure ClientState where
  loop : Option EventLoop
  conn : Option Connector
  client_cache : Option ClientSession
  addr : Option String
deriving Repr, DecidableEq

/-- `self._conn.closed` on an optional connector (`false` when absent —
only consulted after the presence test, mirroring short-circuit `or`). -/
def connClosed : Option Connector → Bool
  | none => false
  | some c => c.closed

/-- `self._client_cache.closed` on an optional session. -/
def sessionClosed : Option ClientSession → Bool
  | none => false
  | some sess => sess.closed

/-- `self._loop.is_closed()` on an optional loop. -/
def loopClosed : Option EventLoop → Bool
  | none => false
  | some l => l.closed

/-- The rebuild condition of `_get_conn`: `self._loop is None or self._conn
is None or self._conn.closed or self._loop.is_closed()`. -/
def needsRebuild (s : ClientState) : Bool :=
  s.loop.isNone || s.conn.isNone || connClosed s.conn || loopClosed s.loop

/-- The rebuild condition of `_client`: `self._loop is None or
self._client_cache is None or self._client_cache.closed or
self._loop.is_closed()`. -/
def clientNeedsRebuild (s : ClientState) : Bool :=
  s.loop.isNone || s.client_cache.isNone || sessionClosed s.client_cache
    || loopClosed s.loop

/-- `RemoteRunnerClient._get_conn`.  `m` is the external runner-name →
bind-URI mapping (`BentoMLContainer.remote_runner_mapping`), `n` the
runner's name, `l` the current event loop (`asyncio.get_event_loop()`).
Returns the updated state and the connector, or the raised exception. -/
def get_conn (m : String → Option String) (n : String) (l : EventLoop)
    (s : ClientState) : Except Err (ClientState × Connector) :=
  if needsRebuild s then
    match m n with
    | none => .error (.keyError n)
    | some bind_uri =>
      let parsed := urlparse bind_uri
      if parsed.scheme = "file" then
        let c := aiohttpUnixConnector (uri_to_path bind_uri) l.id
        .ok ({ loop := some l, conn := some c, client_cache := s.client_cache,
               addr := some "http://127.0.0.1:8000" }, c)
      else if parsed.scheme = "tcp" then
        let c := aiohttpTCPConnector l.id
        .ok ({ loop := some l, conn := some c, client_cache := s.client_cache,
               addr := some ("http://" ++ parsed.netloc) }, c)
      else
        .error (.valueError ("Unsupported bind scheme: " ++ parsed.scheme))
  else
    match s.conn with
    | some c => .ok (s, c)
    | none => .error (.valueError "unreachable: valid state has a connector")

/-- `RemoteRunnerClient._client`.  `timeout_sec` is its (never-supplied in
the source, since it is a property) timeout parameter; `300 = 5 * 60` is
the `DEFAULT_TIMEOUT` total.  When the cached session is valid it is
returned unchanged; otherwise a new session is built over `_get_conn()`'s
connector and cached. -/
def client (timeout_sec : Option Nat) (m : String → Option String)
    (n : String) (l : EventLoop) (s : ClientState) :
    Except Err (ClientState × ClientSession) :=
  if clientNeedsRebuild s then
    match get_conn m n l s with
    | .error e => .error e
    | .ok (s1, c) =>
      let timeout := match timeout_sec with
        | some t => t
        | none => 300
      match s1.loop with
      | some lp =>
        let sess := aiohttpClientSession c timeout lp.id
        .ok ({ s1 with client_cache := some sess }, sess)
      | none => .error (.valueError "unreachable: loop set after get_conn")
  else
    match s.client_cache with
    | some sess => .ok (s, sess)
    | none => .error (.valueError "unreachable: valid state has a session")

/-- The identifying headers `async_run_method` always sends, in insertion
order. -/
def baseHeaders (ctx : ComponentContext) (runnerName : String) :
    List (String × String) :=
  [("Bento-Name", ctx.bento_name),
   ("Bento-Version", ctx.bento_version),
   ("Runner-Name", runnerName),
   ("Yatai-Bento-Deployment-Name", ctx.yatai_bento_deployment_name),
   ("Yatai-Bento-Deployment-Namespace", ctx.yatai_bento_deployment_namespace)]

/-- The request-building phase of `async_run_method` (everything before
`self._client.post`): header assembly, the single-argument fast path
(`args[0]`, metadata in headers, raw payload bytes as body), the
multi-argument path (payload `Params`, the batch-size check, pickled body),
and the method path.  `toPayload v d` is
`AutoContainer.to_payload(v, batch_dim=d)`. -/
def buildRequest {V : Type} (ctx : ComponentContext) (runnerName : String)
    (toPayload : V → Nat → Payload) (method : RunnerMethod)
    (args : List V) (kwargs : List (String × V)) : Except Err Request :=
  let inp_batch_dim := method.config.batch_dim.1
  let total_args_num := args.length + kwargs.length
  let headers := baseHeaders ctx runnerName
    ++ [("Args-Number", toString total_args_num)]
  let path := if method.name = "__call__" then "" else method.name
  if total_args_num = 1 then
    match args[0]? with
    | none => .error .indexError
    | some a0 =>
      let payload := toPayload a0 inp_batch_dim
      .ok { path := path,
            headers := headers ++
              [("Payload-Meta", payload.meta),
               ("Payload-Container", payload.container),
               ("Batch-Size", toString payload.batch_size)],
            body := .raw payload.data }
  else
    let payload_params := (Params.mk args kwargs).map
      (fun v => toPayload v inp_batch_dim)
    if method.config.batchable
        && !(payload_params.map (fun p => p.batch_size)).all_equal then
      .error (.valueError "All batchable arguments must have the same batch size.")
    else
      .ok { path := path, headers := headers, body := .pickled payload_params }

/-- The response-decoding phase of `async_run_method` (everything after the
body is read): the non-200 check, the payload-metadata header check, the
Content-Type checks, the container extraction by `str.strip`, metadata
parsing (`jsonLoads` is `json.loads`, `none` for `JSONDecodeError`), and
the final `AutoContainer.from_payload` handoff (`fromPayload`). -/
def processResponse {R : Type} (runnerName : String)
    (jsonLoads : String → Option String) (fromPayload : Payload → R)
    (resp : Response) : Except Err R :=
  let body := resp.body
  if resp.status ≠ 200 then
    .error (.remoteException
      ("An exception occurred in remote runner " ++ runnerName ++ ": ["
        ++ toString resp.status ++ "] " ++ body))
  else
    match lookupHeader resp.headers PAYLOAD_META_HEADER with
    | none => .error (.remoteException
        ("Bento payload decode error: " ++ PAYLOAD_META_HEADER
          ++ " header not set. An exception might have occurred in the remote server.["
          ++ toString resp.status ++ "] " ++ body))
    | some meta_header =>
      match lookupHeader resp.headers "Content-Type" with
      | none => .error (.remoteException
          ("Bento payload decode error: Content-Type header not set. An exception might have occurred in the remote server.["
            ++ toString resp.status ++ "] " ++ body))
      | some content_type =>
        if !(pyStartsWith (pyLower content_type) "application/vnd.bentoml.") then
          .error (.remoteException
            ("Bento payload decode error: invalid Content-Type \x27"
              ++ content_type ++ "\x27."))
        else
          let container := pyStrip "application/vnd.bentoml." content_type
          match jsonLoads meta_header with
          | none => .error (.valueError
              ("Bento payload decode error: " ++ meta_header))
          | some meta =>
            .ok (fromPayload { data := body, meta := meta, container := container })

/-- `RemoteRunnerClient.async_run_method`: build the request, obtain the
session via the `_client` property (its `timeout_sec` parameter is never
supplied, so it is `none`), post to `self._addr ++ "/" ++ path` (a `None`
address prints as "None", as in the Python f-string), and decode the
response.  `send` is the HTTP transport: it gets the URL and the request
and yields the response. -/
def async_run_method {V R : Type} (ctx : ComponentContext)
    (m : String → Option String) (runnerName : String)
    (toPayload : V → Nat → Payload) (fromPayload : Payload → R)
    (jsonLoads : String → Option String)
    (send : String → Request → Response)
    (l : EventLoop) (s : ClientState) (method : RunnerMethod)
    (args : List V) (kwargs : List (String × V)) :
    Except Err (ClientState × R) :=
  match buildRequest ctx runnerName toPayload method args kwargs with
  | .error e => .error e
  | .ok req =>
    match client none m runnerName l s with
    | .error e => .error e
    | .ok (s1, _sess) =>
      let addr := match s1.addr with
        | some a => a
        | none => "None"
      let resp := send (addr ++ "/" ++ req.path) req
      match processResponse runnerName jsonLoads fromPayload resp with
      | .error e => .error e
      | .ok r => .ok (s1, r)

/-- Two consecutive calls to `_get_conn` with no intervening action,
returning the final state and both connectors. -/
def get_conn_twice (m : String → Option String) (n : String) (l : EventLoop)
    (s : ClientState) : Except Err (ClientState × Connector × Connector) :=
  match get_conn m n l s with
  | .error e => .error e
  | .ok (s1, c1) =>
    match get_conn m n l s1 with
    | .error e => .error e
    | .ok (s2, c2) => .ok (s2, c1, c2)

/-- Two consecutive calls to `_client` with no intervening action,
returning the final state and both sessions. -/
def client_twice (timeout_sec : Option Nat) (m : String → Option String)
    (n : String) (l : EventLoop) (s : ClientState) :
    Except Err (ClientState × ClientSession × ClientSession) :=
  match client timeout_sec m n l s with
  | .error e => .error e
  | .ok (s1, c1) =>
    match client timeout_sec m n l s1 with
    | .error e => .error e
    | .ok (s2, c2) => .ok (s2, c1, c2)

deriving instance DecidableEq for Except

/-! Concrete instances used by witnesses and counterexamples. -/

/-- A concrete component context. -/
def exampleCtx : ComponentContext :=
  { bento_name := "bento_a", bento_version := "1.0",
    yatai_bento_deployment_name := "dep_a",
    yatai_bento_deployment_namespace := "ns_a" }

/-- A concrete batchable method with input batch dimension 0. -/
def exampleMethod : RunnerMethod :=
  { name := "infer", config := { batchable := true, batch_dim := (0, 0) } }

/-- A concrete payload with the given declared batch size. -/
def examplePayload (sz : Int) : Payload :=
  { data := "bytes", meta := "meta", container := "ndarray", batch_size := sz }

/-- A serialization collaborator for witnesses whose values are already
payloads. -/
def idPayload : Payload → Nat → Payload := fun p _ => p

/-- The state of a freshly constructed client: every cached field `None`. -/
def freshState : ClientState :=
  { loop := none, conn := none, client_cache := none, addr := none }

/-- A concrete open event loop. -/
def loopA : EventLoop := { id := 0, closed := false }

/-- A transport stub returning an empty 200 response. -/
def stubSend : String → Request → Response := fun _ _ => { status := 200, headers := [], body := "" }

/-- A name→URI mapping answering a tcp bind URI. -/
def tcpMap : String → Option String := fun _ => some "tcp://myhost:3000"

/-- A name→URI mapping answering a file bind URI. -/
def fileMap : String → Option String := fun _ => some "file:///tmp/run.sock"

/-- A name→URI mapping answering an unsupported scheme. -/
def grpcMap : String → Option String := fun _ => some "grpc://x:1"

/-- An open connector bound to loop 0. -/
def validConn : Connector := aiohttpTCPConnector 0

/-- An open session over `validConn`, bound to loop 0. -/
def validSession : ClientSession := aiohttpClientSession validConn 300 0

/-- A state whose cached connector and session are both present, open and
bound to the open loop 0: no rebuild condition holds. -/
def validState : ClientState :=
  { loop := some loopA, conn := some validConn,
    client_cache := some validSession, addr := some "http://myhost:3000" }

/-- The state `_get_conn` leaves after building a TCP connector for
`tcpMap` on loop 0 from a fresh state. -/
def tcpStateA : ClientState :=
  { loop := some loopA, conn := some (aiohttpTCPConnector 0),
    client_cache := none, addr := some "http://myhost:3000" }

/-- The session `_client` builds from `tcpStateA`'s connector with the
default 300-second timeout. -/
def sessDefault : ClientSession := aiohttpClientSession (aiohttpTCPConnector 0) 300 0

/-- The session `_client` builds from `tcpStateA`'s connector with an
explicit 60-second timeout. -/
def sessSixty : ClientSession := aiohttpClientSession (aiohttpTCPConnector 0) 60 0

/-- `tcpStateA` with `sessDefault` cached. -/
def tcpStateDefault : ClientState := { tcpStateA with client_cache := some sessDefault }

/-- `tcpStateA` with `sessSixty` cached. -/
def tcpStateSixty : ClientState := { tcpStateA with client_cache := some sessSixty }

/-- A state caching an OPEN connector bound to the OPEN loop 1, while the
current loop will be loop 2: the event loop has changed but nothing is
closed or absent. -/
def staleLoopState : ClientState :=
  { loop := some { id := 1, closed := false },
    conn := some (aiohttpTCPConnector 1),
    client_cache := none, addr := some "http://oldhost:1" }

/-- A 200 response that lacks the payload-metadata header. -/
def respMissingMeta : Response :=
  { status := 200,
    headers := [("Content-Type", "application/vnd.bentoml.ndarray")],
    body := "bodybytes" }

/-- A 500 response with body "boom". -/
def resp500boom : Response := { status := 500, headers := [], body := "boom" }

/-- A well-formed 200 response whose Content-Type declares the container
tag "ndarray". -/
def respNdarray : Response :=
  { status := 200,
    headers := [(PAYLOAD_META_HEADER, "null"),
                ("Content-Type", "application/vnd.bentoml.ndarray")],
    body := "DATA" }

/-! Helper lemmas. -/

/-- `listAllEqual` holds exactly when the list is pairwise constant. -/
theorem listAllEqual_iff (l : List Int) :
    listAllEqual l = true ↔ ∀ a ∈ l, ∀ b ∈ l, a = b := by
  cases l with
  | nil => simp [listAllEqual]
  | cons x xs =>
    simp only [listAllEqual, List.all_eq_true, beq_iff_eq]
    constructor
    · intro h a ha b hb
      have ha2 : a = x := by
        rcases List.mem_cons.mp ha with h1 | h1
        · exact h1
        · exact h _ h1
      have hb2 : b = x := by
        rcases List.mem_cons.mp hb with h1 | h1
        · exact h1
        · exact h _ h1
      rw [ha2, hb2]
    · intro h y hy
      exact h y (List.mem_cons_of_mem x hy) x (List.mem_cons_self x xs)

/-- A state that passes `_get_conn`'s validity test has a live loop and a
live connector. -/
theorem valid_conn_state {s : ClientState} (h : needsRebuild s = false) :
    (∃ lp, s.loop = some lp ∧ lp.closed = false)
      ∧ (∃ c, s.conn = some c ∧ c.closed = false) := by
  unfold needsRebuild at h
  simp only [Bool.or_eq_false_iff] at h
  obtain ⟨⟨⟨h1, h2⟩, h3⟩, h4⟩ := h
  cases hl : s.loop with
  | none => rw [hl] at h1; simp at h1
  | some lp =>
    cases hc : s.conn with
    | none => rw [hc] at h2; simp at h2
    | some c =>
      rw [hc] at h3; rw [hl] at h4
      exact ⟨⟨lp, rfl, by simpa [loopClosed] using h4⟩,
             ⟨c, rfl, by simpa [connClosed] using h3⟩⟩

/-- A state that passes `_client`'s validity test has a live loop and a
live session. -/
theorem valid_client_state {s : ClientState} (h : clientNeedsRebuild s = false) :
    (∃ lp, s.loop = some lp ∧ lp.closed = false)
      ∧ (∃ sess, s.client_cache = some sess ∧ sess.closed = false) := by
  unfold clientNeedsRebuild at h
  simp only [Bool.or_eq_false_iff] at h
  obtain ⟨⟨⟨h1, h2⟩, h3⟩, h4⟩ := h
  cases hl : s.loop with
  | none => rw [hl] at h1; simp at h1
  | some lp =>
    cases hc : s.client_cache with
    | none => rw [hc] at h2; simp at h2
    | some sess =>
      rw [hc] at h3; rw [hl] at h4
      exact ⟨⟨lp, rfl, by simpa [loopClosed] using h4⟩,
             ⟨sess, rfl, by simpa [sessionClosed] using h3⟩⟩

/-- A successful `_get_conn` leaves the cached loop set. -/
theorem get_conn_ok_loop {m : String → Option String} {n : String}
    {l : EventLoop} {s s1 : ClientState} {c : Connector}
    (h : get_conn m n l s = .ok (s1, c)) : ∃ lp, s1.loop = some lp := by
  unfold get_conn at h
  split at h
  · split at h
    · simp at h
    · dsimp only at h
      split at h
      · simp only [Except.ok.injEq, Prod.mk.injEq] at h
        exact ⟨l, by rw [← h.1]⟩
      · split at h
        · simp only [Except.ok.injEq, Prod.mk.injEq] at h
          exact ⟨l, by rw [← h.1]⟩
        · simp at h
  · rename_i hreb
    split at h
    · simp only [Except.ok.injEq, Prod.mk.injEq] at h
      obtain ⟨lp, hlp, _⟩ := (valid_conn_state (Bool.of_not_eq_true hreb)).1
      exact ⟨lp, by rw [← h.1]; exact hlp⟩
    · simp at h

/-! Claim theorems. -/

/-- Claim C7: for every response with a non-200 status, dispatch raises a
`RemoteException` (the source's remote-call error) whose message carries
the status code and the raw body text verbatim together with the runner's
logical name.  The response's headers are arbitrary, so the check precedes
all header validation: the error fires even when the metadata header is
absent. -/
theorem non200_remoteException_verbatim {R : Type} (runnerName : String)
    (jsonLoads : String → Option String) (fromPayload : Payload → R)
    (resp : Response) (h : resp.status ≠ 200) :
    processResponse runnerName jsonLoads fromPayload resp
      = .error (.remoteException ("An exception occurred in remote runner "
          ++ runnerName ++ ": [" ++ toString resp.status ++ "] " ++ resp.body)) := by
  simp [processResponse, h]

/-- Witness for C7: a stub 500 response with body "boom" and no headers at
all yields the remote-call error containing both 500 and "boom" and the
runner name. -/
theorem non200_remoteException_verbatim_witness :
    processResponse "runner_a" some (fun (p : Payload) => p) resp500boom
      = .error (.remoteException
          "An exception occurred in remote runner runner_a: [500] boom") :=
  non200_remoteException_verbatim "runner_a" some (fun p => p) resp500boom
    (by decide)

/-- Claim C8 counterexample: the source raises the SAME exception class,
`RemoteException`, both for a non-200 response and for a 200 response that
lacks the payload-metadata header — the failure kinds coincide (tag 0 =
`Err.remoteException`), so the missing-header failure is NOT a kind
distinct from the remote-call failure. -/
theorem missing_meta_same_error_kind :
    errTagOf (processResponse "runner_a" some (fun (p : Payload) => p) respMissingMeta)
      = errTagOf (processResponse "runner_a" some (fun (p : Payload) => p) resp500boom)
    ∧ processResponse "runner_a" some (fun (p : Payload) => p) respMissingMeta
      = .error (.remoteException
          "Bento payload decode error: Bento-Payload-Meta header not set. An exception might have occurred in the remote server.[200] bodybytes") :=
  ⟨rfl, rfl⟩

/-- Claim C8 amended: for every 200 response that lacks the
payload-metadata header, dispatch raises a `RemoteException` — the same
exception class the source uses for non-200 responses, distinguished only
by its message — whose message names the missing metadata header. -/
theorem missing_meta_remoteException_message {R : Type} (runnerName : String)
    (jsonLoads : String → Option String) (fromPayload : Payload → R)
    (resp : Response) (h200 : resp.status = 200)
    (hmiss : lookupHeader resp.headers PAYLOAD_META_HEADER = none) :
    processResponse runnerName jsonLoads fromPayload resp
      = .error (.remoteException ("Bento payload decode error: "
          ++ PAYLOAD_META_HEADER
          ++ " header not set. An exception might have occurred in the remote server.["
          ++ toString resp.status ++ "] " ++ resp.body)) := by
  simp [processResponse, h200, hmiss]

/-- Witness for the amended C8 at the concrete header-less 200 response. -/
theorem missing_meta_remoteException_message_witness :
    processResponse "runner_a" some (fun (p : Payload) => p) respMissingMeta
      = .error (.remoteException
          "Bento payload decode error: Bento-Payload-Meta header not set. An exception might have occurred in the remote server.[200] bodybytes") :=
  missing_meta_remoteException_message "runner_a" some (fun p => p)
    respMissingMeta (by decide) (by decide)

/-- Claim C2 (code bug): the source extracts the container tag with
`content_type.strip("application/vnd.bentoml.")`.  Python `str.strip`
removes a character SET from both ends, not a prefix, so for the
Content-Type `application/vnd.bentoml.ndarray` the payload handed to the
deserialization collaborator carries container "rray", not the suffix
"ndarray" that the Content-Type declares and that the spec (and the
preceding `startswith` namespace check) intend. -/
theorem contentType_strip_mangles_container :
    processResponse "runner_a" some (fun (p : Payload) => p) respNdarray
      = .ok { data := "DATA", meta := "null", container := "rray", batch_size := -1 }
    ∧ pyStrip "application/vnd.bentoml." "application/vnd.bentoml.ndarray" = "rray"
    ∧ "rray" ≠ "ndarray" := by
  refine ⟨by decide, by decide, by decide⟩

/-- Claim C10: a call that supplies its single argument by keyword (zero
positional arguments, one keyword argument) fails with the out-of-bounds
positional access `args[0]` (an `IndexError`) before building any request:
the result is the same for every transport `send` and every serializer
`toPayload`, so no request is sent and the keyword value is never
serialized. -/
theorem single_kwarg_call_indexError {V R : Type} (ctx : ComponentContext)
    (m : String → Option String) (runnerName : String)
    (toPayload : V → Nat → Payload) (fromPayload : Payload → R)
    (jsonLoads : String → Option String) (send : String → Request → Response)
    (l : EventLoop) (s : ClientState) (method : RunnerMethod)
    (k : String) (v : V) :
    async_run_method ctx m runnerName toPayload fromPayload jsonLoads send
        l s method [] [(k, v)]
      = .error .indexError := rfl

/-- Claim C9 (code bug): the first conjunct evaluates the dispatcher at the
failing input — a call whose single argument is supplied by keyword — and
shows it raises `IndexError` at `args[0]` instead of taking the documented
fast path (the source itself marks this with "FIXME: also considering
kargs").  The second conjunct shows the fast path as claimed for a single
POSITIONAL argument: serialized payload metadata, container tag and batch
size travel in the headers and the body is the payload's raw bytes
unmodified. -/
theorem single_kwarg_indexError_and_positional_fast_path {V : Type}
    (ctx : ComponentContext) (runnerName : String)
    (toPayload : V → Nat → Payload) (method : RunnerMethod) (a : V) :
    (buildRequest exampleCtx "runner_a" idPayload exampleMethod []
        [("x", examplePayload 3)] = .error .indexError)
    ∧ (buildRequest ctx runnerName toPayload method [a] []
      = .ok { path := if method.name = "__call__" then "" else method.name,
              headers := baseHeaders ctx runnerName ++
                [("Args-Number", "1"),
                 ("Payload-Meta", (toPayload a method.config.batch_dim.1).meta),
                 ("Payload-Container", (toPayload a method.config.batch_dim.1).container),
                 ("Batch-Size", toString (toPayload a method.config.batch_dim.1).batch_size)],
              body := .raw (toPayload a method.config.batch_dim.1).data }) := by
  refine ⟨rfl, ?_⟩
  unfold buildRequest
  simp
  rfl

/-- Claim C1: for a batch-enabled method called with two or more arguments
whose serialized payloads declare differing batch sizes, dispatch fails
with the batch-alignment `ValueError` — and the result is the same for
every transport `send` and every client state, so the error precedes any
network I/O and no request is ever sent. -/
theorem batchMismatch_valueError_before_send {V R : Type}
    (ctx : ComponentContext) (runnerName : String)
    (toPayload : V → Nat → Payload) (method : RunnerMethod)
    (args : List V) (kwargs : List (String × V))
    (hb : method.config.batchable = true)
    (h2 : 2 ≤ args.length + kwargs.length)
    (hdiff : ∃ a ∈ (((Params.mk args kwargs).map
          (fun v => toPayload v method.config.batch_dim.1)).map
          (fun p => p.batch_size)).item_list,
        ∃ b ∈ (((Params.mk args kwargs).map
          (fun v => toPayload v method.config.batch_dim.1)).map
          (fun p => p.batch_size)).item_list, a ≠ b) :
    ∀ (fromPayload : Payload → R) (m : String → Option String)
      (jsonLoads : String → Option String)
      (send : String → Request → Response) (l : EventLoop) (s : ClientState),
      async_run_method ctx m runnerName toPayload fromPayload jsonLoads send
          l s method args kwargs
        = .error (.valueError
            "All batchable arguments must have the same batch size.") := by
  intro fromPayload m jsonLoads send l s
  have hne1 : ¬ (args.length + kwargs.length = 1) := by omega
  have hfalse : (((Params.mk args kwargs).map
      (fun v => toPayload v method.config.batch_dim.1)).map
      (fun p => p.batch_size)).all_equal = false := by
    obtain ⟨a, ha, b, hbm, hab⟩ := hdiff
    have hne : ¬ (listAllEqual (((Params.mk args kwargs).map
        (fun v => toPayload v method.config.batch_dim.1)).map
        (fun p => p.batch_size)).item_list = true) := by
      intro h
      exact hab ((listAllEqual_iff _).mp h a ha b hbm)
    unfold Params.all_equal
    exact Bool.eq_false_iff.mpr hne
  have hbuild : buildRequest ctx runnerName toPayload method args kwargs
      = .error (.valueError
          "All batchable arguments must have the same batch size.") := by
    unfold buildRequest
    simp only [hne1, if_false, hb, hfalse]
    simp
  unfold async_run_method
  rw [hbuild]

/-- Witness for C1: two positional payload arguments with declared batch
sizes 4 and 5 on a batchable method make dispatch fail with the alignment
`ValueError` under a stub transport and a fresh client state. -/
theorem batchMismatch_valueError_before_send_witness :
    async_run_method exampleCtx (fun _ => none) "runner_a" idPayload
        (fun (p : Payload) => p) some stubSend loopA freshState exampleMethod
        [examplePayload 4, examplePayload 5] []
      = .error (.valueError
          "All batchable arguments must have the same batch size.") :=
  batchMismatch_valueError_before_send exampleCtx "runner_a" idPayload
    exampleMethod [examplePayload 4, examplePayload 5] [] rfl (by decide)
    (by decide) (fun p => p) (fun _ => none) some stubSend loopA freshState

/-- Claim C3: when `_get_conn` resolves the bind URI (rebuild condition
holding and the mapping defined), a `file` scheme yields a Unix-socket
connector on the URI's path (with the placeholder authority), a `tcp`
scheme yields a TCP connector addressed through `http://<netloc>`, and any
other scheme raises the distinct configuration `ValueError` naming the
scheme — the failure is returned directly, never retried. -/
theorem get_conn_scheme_dispatch (m : String → Option String) (n uri : String)
    (l : EventLoop) (s : ClientState)
    (hreb : needsRebuild s = true) (hm : m n = some uri) :
    ((urlparse uri).scheme = "file" →
      get_conn m n l s = .ok
        ({ loop := some l,
           conn := some (aiohttpUnixConnector (uri_to_path uri) l.id),
           client_cache := s.client_cache,
           addr := some "http://127.0.0.1:8000" },
         aiohttpUnixConnector (uri_to_path uri) l.id))
    ∧ ((urlparse uri).scheme = "tcp" →
      get_conn m n l s = .ok
        ({ loop := some l, conn := some (aiohttpTCPConnector l.id),
           client_cache := s.client_cache,
           addr := some ("http://" ++ (urlparse uri).netloc) },
         aiohttpTCPConnector l.id))
    ∧ ((urlparse uri).scheme ≠ "file" → (urlparse uri).scheme ≠ "tcp" →
      get_conn m n l s
        = .error (.valueError ("Unsupported bind scheme: "
            ++ (urlparse uri).scheme))) := by
  refine ⟨?_, ?_, ?_⟩
  · intro hf
    simp [get_conn, hreb, hm, hf, uri_to_path]
  · intro ht
    simp [get_conn, hreb, hm, ht]
  · intro hf ht
    simp [get_conn, hreb, hm, hf, ht]

/-- Witness for C3: the three branches at concrete URIs — a tcp URI builds
the TCP connector with `http://myhost:3000` addressing, a file URI builds
the Unix connector on `/tmp/run.sock`, and a grpc URI fails with the
unsupported-scheme `ValueError`. -/
theorem get_conn_scheme_dispatch_witness :
    get_conn tcpMap "runner_a" loopA freshState = .ok
        ({ loop := some loopA, conn := some (aiohttpTCPConnector 0),
           client_cache := none, addr := some "http://myhost:3000" },
         aiohttpTCPConnector 0)
    ∧ get_conn fileMap "runner_a" loopA freshState = .ok
        ({ loop := some loopA,
           conn := some (aiohttpUnixConnector "/tmp/run.sock" 0),
           client_cache := none, addr := some "http://127.0.0.1:8000" },
         aiohttpUnixConnector "/tmp/run.sock" 0)
    ∧ get_conn grpcMap "runner_a" loopA freshState
        = .error (.valueError "Unsupported bind scheme: grpc") := by
  refine ⟨?_, ?_, ?_⟩
  · exact (get_conn_scheme_dispatch tcpMap "runner_a" "tcp://myhost:3000"
      loopA freshState rfl rfl).2.1 (by decide)
  · exact (get_conn_scheme_dispatch fileMap "runner_a" "file:///tmp/run.sock"
      loopA freshState rfl rfl).1 (by decide)
  · exact (get_conn_scheme_dispatch grpcMap "runner_a" "grpc://x:1"
      loopA freshState rfl rfl).2.2 (by decide) (by decide)

/-- Claim C4: whenever `_client` actually creates a session (its rebuild
condition holds and the connector is obtained), the session is configured
with the explicit timeout when one is supplied and with the default
total-call timeout `300 = 5 * 60` seconds otherwise, wrapping `_get_conn`'s
connector on the cached loop. -/
theorem client_timeout_configuration (timeout_sec : Option Nat)
    (m : String → Option String) (n : String) (l : EventLoop)
    (s s1 : ClientState) (c : Connector)
    (hreb : clientNeedsRebuild s = true)
    (hconn : get_conn m n l s = .ok (s1, c)) :
    ∃ lp, s1.loop = some lp ∧
      client timeout_sec m n l s
        = .ok ({ s1 with client_cache := some (aiohttpClientSession c
                  (match timeout_sec with | some t => t | none => 300) lp.id) },
               aiohttpClientSession c
                 (match timeout_sec with | some t => t | none => 300) lp.id) := by
  obtain ⟨lp, hlp⟩ := get_conn_ok_loop hconn
  refine ⟨lp, hlp, ?_⟩
  unfold client
  rw [hreb, if_pos rfl, hconn]
  simp only [hlp]

/-- Witness for C4: from a fresh state over the tcp mapping, a session
created with no timeout carries the default 300-second total timeout, and
one created with an explicit 60-second timeout carries 60. -/
theorem client_timeout_configuration_witness :
    client none tcpMap "runner_a" loopA freshState
      = .ok (tcpStateDefault, sessDefault)
    ∧ client (some 60) tcpMap "runner_a" loopA freshState
      = .ok (tcpStateSixty, sessSixty) := by
  constructor
  · obtain ⟨lp, hlp, h⟩ := client_timeout_configuration none tcpMap "runner_a"
      loopA freshState tcpStateA (aiohttpTCPConnector 0) rfl (by decide)
    have hlp2 : lp = loopA := Option.some.inj hlp.symm
    rw [hlp2] at h
    exact h
  · obtain ⟨lp, hlp, h⟩ := client_timeout_configuration (some 60) tcpMap
      "runner_a" loopA freshState tcpStateA (aiohttpTCPConnector 0) rfl (by decide)
    have hlp2 : lp = loopA := Option.some.inj hlp.symm
    rw [hlp2] at h
    exact h

/-- Claim C5: in a valid state — cached connector and session present and
open, bound loop present and open — calling `_get_conn` twice or `_client`
twice with no intervening invalidation returns the SAME cached handle both
times and leaves the state untouched: no duplicate transport or session is
created. -/
theorem get_conn_client_idempotent_when_valid (m : String → Option String)
    (n : String) (l : EventLoop) (s : ClientState)
    (h1 : needsRebuild s = false) (h2 : clientNeedsRebuild s = false) :
    ∃ c sess, s.conn = some c ∧ s.client_cache = some sess
      ∧ get_conn_twice m n l s = .ok (s, c, c)
      ∧ client_twice none m n l s = .ok (s, sess, sess) := by
  obtain ⟨-, c, hc, -⟩ := valid_conn_state h1
  obtain ⟨-, sess, hsess, -⟩ := valid_client_state h2
  refine ⟨c, sess, hc, hsess, ?_, ?_⟩
  · have hone : get_conn m n l s = .ok (s, c) := by
      unfold get_conn
      rw [h1]
      simp [hc]
    simp [get_conn_twice, hone]
  · have hone : client none m n l s = .ok (s, sess) := by
      unfold client
      rw [h2]
      simp [hsess]
    simp [client_twice, hone]

/-- Witness for C5: on the concrete valid state, both double calls return
the cached connector resp. session twice, unchanged. -/
theorem get_conn_client_idempotent_when_valid_witness :
    ∃ c sess, validState.conn = some c ∧ validState.client_cache = some sess
      ∧ get_conn_twice tcpMap "runner_a" loopA validState = .ok (validState, c, c)
      ∧ client_twice none tcpMap "runner_a" loopA validState
          = .ok (validState, sess, sess) :=
  get_conn_client_idempotent_when_valid tcpMap "runner_a" loopA validState
    (by decide) (by decide)

/-- Claim C6 counterexample: `staleLoopState` caches an OPEN connector
bound to the OPEN loop 1, and the current event loop is loop 2 — the bound
loop HAS changed.  The claim requires a rebuild ("exactly when ... the
bound event loop has changed or closed"), yet `_get_conn` returns the old
cached connector (still bound to loop 1) with the state unchanged: the
bind URI is not re-resolved and no new transport is built. -/
theorem get_conn_loop_change_no_rebuild :
    get_conn tcpMap "runner_a" { id := 2, closed := false } staleLoopState
      = .ok (staleLoopState, aiohttpTCPConnector 1)
    ∧ (aiohttpTCPConnector 1).loopId ≠ (2 : Nat) := by
  refine ⟨by decide, by decide⟩

/-- Claim C6 amended: the bind URI is re-resolved and a new transport built
exactly when the cached transport is absent or closed, or the bound loop is
absent or closed — a mere change of the current event loop does not
trigger a rebuild.  When no rebuild condition holds the cached connector is
returned unchanged for EVERY mapping (the URI is not re-resolved); when one
holds and the URI resolves to a supported scheme, the next call stores and
returns a fresh open connector bound to the current loop, replacing the old
value rather than mutating it. -/
theorem get_conn_rebuild_iff_invalid (m : String → Option String) (n : String)
    (l : EventLoop) (s : ClientState) :
    (needsRebuild s = false →
      ∀ c, s.conn = some c →
        ∀ m2 : String → Option String, get_conn m2 n l s = .ok (s, c))
    ∧ (needsRebuild s = true →
      ∀ uri, m n = some uri →
        ((urlparse uri).scheme = "file" ∨ (urlparse uri).scheme = "tcp") →
        ∃ c s1, get_conn m n l s = .ok (s1, c) ∧ c.closed = false
          ∧ c.loopId = l.id ∧ s1.conn = some c ∧ s1.loop = some l) := by
  constructor
  · intro hv c hc m2
    unfold get_conn
    rw [hv]
    simp [hc]
  · intro hreb uri hm hscheme
    rcases hscheme with hf | ht
    · refine ⟨aiohttpUnixConnector (uri_to_path uri) l.id,
        { loop := some l,
          conn := some (aiohttpUnixConnector (uri_to_path uri) l.id),
          client_cache := s.client_cache,
          addr := some "http://127.0.0.1:8000" }, ?_, rfl, rfl, rfl, rfl⟩
      simp [get_conn, hreb, hm, hf, uri_to_path]
    · refine ⟨aiohttpTCPConnector l.id,
        { loop := some l, conn := some (aiohttpTCPConnector l.id),
          client_cache := s.client_cache,
          addr := some ("http://" ++ (urlparse uri).netloc) }, ?_, rfl, rfl, rfl, rfl⟩
      simp [get_conn, hreb, hm, ht]

/-- Witness for the amended C6: a fresh state (absent transport) rebuilds
into an open connector on the current loop, and the valid state returns
its cached connector even under a mapping that would name a different
URI. -/
theorem get_conn_rebuild_iff_invalid_witness :
    (∃ c s1, get_conn tcpMap "runner_a" loopA freshState = .ok (s1, c)
      ∧ c.closed = false ∧ c.loopId = loopA.id ∧ s1.conn = some c
      ∧ s1.loop = some loopA)
    ∧ get_conn grpcMap "runner_a" loopA validState = .ok (validState, validConn) := by
  constructor
  · exact (get_conn_rebuild_iff_invalid tcpMap "runner_a" loopA freshState).2
      rfl "tcp://myhost:3000" rfl (Or.inr (by decide))
  · exact (get_conn_rebuild_iff_invalid grpcMap "runner_a" loopA validState).1
      rfl validConn rfl grpcMap
